import Mathlib

/-!
Verification of `innovation-calculator.py`: a shallow embedding over the
real numbers of its two pure functions, `innovation_success_curve` and
`calculate_innovation_gospel_value`, together with theorems settling the
specification's claims about them.

Modelling conventions:
* Python real arithmetic is embedded as exact arithmetic on `ℝ`.
* Python `**` with the fractional exponents `1.5` and `0.5` is embedded as
  `Real.rpow`; a negative base under a fractional exponent is undefined over
  the reals, so `calculate_innovation_gospel_value` returns `Option ℝ`,
  with `none` as the domain error (which in the source propagates to the
  caller as an unhandled exception).  The exponent `2` is an integer, so
  `peer_credibility ** 2` is total.
-/

open Real

/-- Embedding of `innovation_success_curve(constraint_complexity)`
(src/innovation-science/tools-and-frameworks/innovation-calculator.py,
lines 7-25): a three-branch piecewise function.  The branch order follows
the source: `if constraint_complexity < 2`, `elif constraint_complexity > 5`,
`else` (the optimal zone `2 <= c <= 5`). -/
noncomputable def innovation_success_curve (constraint_complexity : ℝ) : ℝ :=
  if constraint_complexity < 2 then
    max 0 (0.3 - (2 - constraint_complexity) ^ 2 * 0.15)
  else if 5 < constraint_complexity then
    max 0 (0.2 - (constraint_complexity - 5) ^ 2 * 0.05)
  else
    0.9 - |constraint_complexity - 3.5| ^ 2 * 0.1

/-- Embedding of
`calculate_innovation_gospel_value(paradox_strength, peer_credibility, customer_readiness)`
(same file, lines 27-36).  `paradox_strength ** 1.5` and
`customer_readiness ** 0.5` are undefined over the reals for a negative
base, so the result is `none` exactly there; otherwise it is
`min 1 (paradox_strength ^ 1.5 * peer_credibility ^ 2 * customer_readiness ^ 0.5)`,
with every `^` the real power `Real.rpow` as in the source's `**`. -/
noncomputable def calculate_innovation_gospel_value
    (paradox_strength peer_credibility customer_readiness : ℝ) : Option ℝ :=
  if paradox_strength < 0 ∨ customer_readiness < 0 then
    none
  else
    some (min 1 (paradox_strength ^ (1.5 : ℝ) * peer_credibility ^ (2 : ℝ) *
      customer_readiness ^ (0.5 : ℝ)))

/-- Claim C8: `innovation_success_curve` hits the spec's reference values in
the optimal zone: `0.9` at input `3.5` and `0.9 - 1.5^2 * 0.1 = 0.675` at
input `2`. -/
theorem success_curve_reference_values :
    innovation_success_curve 3.5 = 0.9 ∧ innovation_success_curve 2 = 0.675 := by
  constructor
  · rw [innovation_success_curve, if_neg (by norm_num), if_neg (by norm_num),
      sq_abs]
    norm_num
  · rw [innovation_success_curve, if_neg (by norm_num), if_neg (by norm_num),
      sq_abs]
    norm_num

/-- Claim C1: on each of the three regions, `innovation_success_curve`
returns exactly the spec's piecewise value: `max 0 (0.3 - (2-c)^2 * 0.15)`
for `c < 2`, `0.9 - |c - 3.5|^2 * 0.1` for `2 ≤ c ≤ 5`, and
`max 0 (0.2 - (c-5)^2 * 0.05)` for `5 < c`. -/
theorem success_curve_piecewise (c : ℝ) :
    (c < 2 → innovation_success_curve c = max 0 (0.3 - (2 - c) ^ 2 * 0.15)) ∧
    (2 ≤ c ∧ c ≤ 5 → innovation_success_curve c = 0.9 - |c - 3.5| ^ 2 * 0.1) ∧
    (5 < c → innovation_success_curve c = max 0 (0.2 - (c - 5) ^ 2 * 0.05)) := by
  refine ⟨fun h => ?_, fun h => ?_, fun h => ?_⟩
  · rw [innovation_success_curve, if_pos h]
  · rw [innovation_success_curve, if_neg (not_lt.mpr h.1), if_neg (not_lt.mpr h.2)]
  · rw [innovation_success_curve, if_neg (not_lt.mpr (by linarith)), if_pos h]

/-- Witness for C1: the three regional formulas evaluated at the concrete
inputs 1, 3 and 6. -/
theorem success_curve_piecewise_witness :
    innovation_success_curve 1 = max 0 (0.3 - (2 - 1 : ℝ) ^ 2 * 0.15) ∧
    innovation_success_curve 3 = 0.9 - |(3 : ℝ) - 3.5| ^ 2 * 0.1 ∧
    innovation_success_curve 6 = max 0 (0.2 - (6 - 5 : ℝ) ^ 2 * 0.05) :=
  ⟨(success_curve_piecewise 1).1 (by norm_num),
   (success_curve_piecewise 3).2.1 ⟨by norm_num, by norm_num⟩,
   (success_curve_piecewise 6).2.2 (by norm_num)⟩

/-- Claim C4: for every real input, including negative inputs and inputs
outside `[0, 8]`, the result of `innovation_success_curve` lies in
`[0, 0.9]`; in particular the unclamped optimal-zone branch never drops
below 0 (it is at least `0.675` there) and never exceeds `0.9`. -/
theorem success_curve_bounded (c : ℝ) :
    0 ≤ innovation_success_curve c ∧ innovation_success_curve c ≤ 0.9 := by
  rw [innovation_success_curve]
  split_ifs with h1 h2
  · exact ⟨le_max_left _ _, max_le (by norm_num) (by nlinarith [sq_nonneg (2 - c)])⟩
  · exact ⟨le_max_left _ _, max_le (by norm_num) (by nlinarith [sq_nonneg (c - 5)])⟩
  · push_neg at h1 h2
    rw [sq_abs]
    constructor
    · nlinarith [mul_nonneg (by linarith : (0:ℝ) ≤ c - 2) (by linarith : (0:ℝ) ≤ 5 - c)]
    · nlinarith [sq_nonneg (c - 3.5)]

/-- Claim C6: `innovation_success_curve` is discontinuous at the region
boundary `2`: the optimal-zone branch owns the boundary and evaluates to
`0.675` there, while every input `c < 2` yields a value strictly below
`0.3`, so the jump at the boundary is at least `0.375`. -/
theorem success_curve_discontinuous_at_two (c : ℝ) (h : c < 2) :
    innovation_success_curve 2 = 0.675 ∧
    innovation_success_curve c < 0.3 ∧
    0.375 ≤ innovation_success_curve 2 - innovation_success_curve c := by
  have h2 : innovation_success_curve 2 = 0.675 := by
    rw [innovation_success_curve, if_neg (by norm_num), if_neg (by norm_num),
      sq_abs]
    norm_num
  have hc : innovation_success_curve c < 0.3 := by
    rw [innovation_success_curve, if_pos h]
    have hp : 0 < (2 - c) ^ 2 := pow_pos (by linarith) 2
    exact max_lt (by norm_num) (by nlinarith)
  exact ⟨h2, hc, by rw [h2]; linarith⟩

/-- Witness for C6: the jump at the boundary, observed from the concrete
input 0. -/
theorem success_curve_discontinuous_at_two_witness :
    (0 : ℝ) < 2 ∧
    (innovation_success_curve 2 = 0.675 ∧
     innovation_success_curve 0 < 0.3 ∧
     0.375 ≤ innovation_success_curve 2 - innovation_success_curve 0) :=
  ⟨by norm_num, success_curve_discontinuous_at_two 0 (by norm_num)⟩

/-- Claim C10: within the optimal zone, `innovation_success_curve` is
symmetric about `3.5`: for `0 ≤ d ≤ 1.5` the values at `3.5 - d` and
`3.5 + d` coincide. -/
theorem success_curve_symmetric (d : ℝ) (h0 : 0 ≤ d) (h1 : d ≤ 1.5) :
    innovation_success_curve (3.5 - d) = innovation_success_curve (3.5 + d) := by
  rw [innovation_success_curve, innovation_success_curve,
    if_neg (by push_neg; linarith), if_neg (by push_neg; linarith),
    if_neg (by push_neg; linarith), if_neg (by push_neg; linarith)]
  have e1 : (3.5 - d - 3.5 : ℝ) = -d := by ring
  have e2 : (3.5 + d - 3.5 : ℝ) = d := by ring
  rw [e1, e2, abs_neg]

/-- Witness for C10: symmetry at `d = 1`, i.e. equal values at 2.5 and 4.5. -/
theorem success_curve_symmetric_witness :
    (0 : ℝ) ≤ 1 ∧ (1 : ℝ) ≤ 1.5 ∧
    innovation_success_curve (3.5 - 1) = innovation_success_curve (3.5 + 1) :=
  ⟨by norm_num, by norm_num, success_curve_symmetric 1 (by norm_num) (by norm_num)⟩

/-- Helper: on non-negative `paradox_strength` and `customer_readiness` the
gospel value is defined and equals the clamped product, with the integer
power written as a monomial. -/
theorem gospel_defined_eq (p c r : ℝ) (hp : 0 ≤ p) (hr : 0 ≤ r) :
    calculate_innovation_gospel_value p c r =
      some (min 1 (p ^ (1.5 : ℝ) * c ^ 2 * r ^ (0.5 : ℝ))) := by
  rw [calculate_innovation_gospel_value,
    if_neg (by push_neg; exact ⟨hp, hr⟩)]
  rw [Real.rpow_two]

/-- Claim C2: wherever it is defined (non-negative `paradox_strength` and
`customer_readiness`), `calculate_innovation_gospel_value` returns exactly
`min 1 (paradox_strength ^ 1.5 * peer_credibility ^ 2 * customer_readiness ^ 0.5)`. -/
theorem gospel_value_formula (p c r : ℝ) (hp : 0 ≤ p) (hr : 0 ≤ r) :
    calculate_innovation_gospel_value p c r =
      some (min 1 (p ^ (1.5 : ℝ) * c ^ 2 * r ^ (0.5 : ℝ))) :=
  gospel_defined_eq p c r hp hr

/-- Witness for C2: the formula at the all-maximal input `(1, 1, 1)`. -/
theorem gospel_value_formula_witness :
    calculate_innovation_gospel_value 1 1 1 =
      some (min 1 ((1 : ℝ) ^ (1.5 : ℝ) * 1 ^ 2 * (1 : ℝ) ^ (0.5 : ℝ))) :=
  gospel_value_formula 1 1 1 (by norm_num) (by norm_num)

/-- Claim C3: `calculate_innovation_gospel_value` fails with a domain error
exactly when `paradox_strength` or `customer_readiness` is negative (a
negative base under a fractional exponent), with no local recovery; in
particular the input `(-0.1, 0.5, 0.5)` fails, and no other input fails. -/
theorem gospel_value_domain_error :
    calculate_innovation_gospel_value (-0.1) 0.5 0.5 = none ∧
    ∀ p c r : ℝ,
      (calculate_innovation_gospel_value p c r = none ↔ p < 0 ∨ r < 0) := by
  constructor
  · rw [calculate_innovation_gospel_value, if_pos (Or.inl (by norm_num))]
  · intro p c r
    rw [calculate_innovation_gospel_value]
    split_ifs with h
    · simp [h]
    · simp [h]

/-- Claim C5: wherever it is defined (non-negative `paradox_strength` and
`customer_readiness`, any real `peer_credibility`, including negative since
it is squared), the result of `calculate_innovation_gospel_value` lies in
`[0, 1]`. -/
theorem gospel_value_bounded (p c r : ℝ) (hp : 0 ≤ p) (hr : 0 ≤ r) :
    ∃ v, calculate_innovation_gospel_value p c r = some v ∧ 0 ≤ v ∧ v ≤ 1 := by
  refine ⟨min 1 (p ^ (1.5 : ℝ) * c ^ 2 * r ^ (0.5 : ℝ)),
    gospel_defined_eq p c r hp hr, ?_, min_le_left _ _⟩
  have h1 : 0 ≤ p ^ (1.5 : ℝ) := Real.rpow_nonneg hp _
  have h2 : 0 ≤ c ^ 2 := sq_nonneg c
  have h3 : 0 ≤ r ^ (0.5 : ℝ) := Real.rpow_nonneg hr _
  exact le_min (by norm_num) (by positivity)

/-- Witness for C5: the bound at `(0.5, -0.3, 0.5)`, with a negative
`peer_credibility`. -/
theorem gospel_value_bounded_witness :
    ∃ v, calculate_innovation_gospel_value 0.5 (-0.3) 0.5 = some v ∧
      0 ≤ v ∧ v ≤ 1 :=
  gospel_value_bounded 0.5 (-0.3) 0.5 (by norm_num) (by norm_num)

/-- Claim C9: `calculate_innovation_gospel_value` is monotonically
non-decreasing in its three arguments over non-negative inputs: raising any
of `paradox_strength`, `peer_credibility`, `customer_readiness` (all taken
non-negative) never lowers the result. -/
theorem gospel_value_monotone (p c r q d s : ℝ)
    (hp : 0 ≤ p) (hc : 0 ≤ c) (hr : 0 ≤ r)
    (hpq : p ≤ q) (hcd : c ≤ d) (hrs : r ≤ s) :
    ∃ v w, calculate_innovation_gospel_value p c r = some v ∧
      calculate_innovation_gospel_value q d s = some w ∧ v ≤ w := by
  refine ⟨_, _, gospel_defined_eq p c r hp hr,
    gospel_defined_eq q d s (hp.trans hpq) (hr.trans hrs), ?_⟩
  have h1 : p ^ (1.5 : ℝ) ≤ q ^ (1.5 : ℝ) :=
    Real.rpow_le_rpow hp hpq (by norm_num)
  have h2 : c ^ 2 ≤ d ^ 2 := pow_le_pow_left₀ hc hcd 2
  have h3 : r ^ (0.5 : ℝ) ≤ s ^ (0.5 : ℝ) :=
    Real.rpow_le_rpow hr hrs (by norm_num)
  have hq : 0 ≤ q ^ (1.5 : ℝ) := Real.rpow_nonneg (hp.trans hpq) _
  refine min_le_min le_rfl ?_
  exact mul_le_mul (mul_le_mul h1 h2 (sq_nonneg c) hq) h3
    (Real.rpow_nonneg hr _) (mul_nonneg hq (sq_nonneg d))

/-- Witness for C9: monotonicity between the concrete inputs `(0, 0, 0)`
and `(1, 1, 1)`. -/
theorem gospel_value_monotone_witness :
    ∃ v w, calculate_innovation_gospel_value 0 0 0 = some v ∧
      calculate_innovation_gospel_value 1 1 1 = some w ∧ v ≤ w :=
  gospel_value_monotone 0 0 0 1 1 1 le_rfl le_rfl le_rfl
    (by norm_num) (by norm_num) (by norm_num)

/-- Helper: sharp numeric bounds on the reference gospel value
`min 1 (0.8 ^ 1.5 * 0.9 ^ 2 * 0.7 ^ 0.5)`: it lies strictly between
`0.4848` and `0.485` (numerically it is about `0.48492`). -/
theorem gospel_example_bounds :
    0.4848 < min 1 ((0.8 : ℝ) ^ (1.5 : ℝ) * (0.9 : ℝ) ^ (2 : ℝ) * (0.7 : ℝ) ^ (0.5 : ℝ)) ∧
    min 1 ((0.8 : ℝ) ^ (1.5 : ℝ) * (0.9 : ℝ) ^ (2 : ℝ) * (0.7 : ℝ) ^ (0.5 : ℝ)) < 0.485 := by
  have e15 : (0.8 : ℝ) ^ (1.5 : ℝ) = 0.8 * Real.sqrt 0.8 := by
    rw [show (1.5 : ℝ) = 1 + 1 / 2 by norm_num,
      Real.rpow_add (by norm_num), Real.rpow_one, ← Real.sqrt_eq_rpow]
  have e05 : (0.7 : ℝ) ^ (0.5 : ℝ) = Real.sqrt 0.7 := by
    rw [show (0.5 : ℝ) = 1 / 2 by norm_num, ← Real.sqrt_eq_rpow]
  have e2 : (0.9 : ℝ) ^ (2 : ℝ) = 0.81 := by
    rw [Real.rpow_two]; norm_num
  have s8 := Real.sq_sqrt (show (0 : ℝ) ≤ 0.8 by norm_num)
  have s7 := Real.sq_sqrt (show (0 : ℝ) ≤ 0.7 by norm_num)
  have n8 := Real.sqrt_nonneg (0.8 : ℝ)
  have n7 := Real.sqrt_nonneg (0.7 : ℝ)
  have b8l : 0.89442 < Real.sqrt 0.8 := by nlinarith
  have b8u : Real.sqrt 0.8 < 0.89443 := by nlinarith
  have b7l : 0.83666 < Real.sqrt 0.7 := by nlinarith
  have b7u : Real.sqrt 0.7 < 0.83667 := by nlinarith
  have hprodl : 0.7483 < Real.sqrt 0.8 * Real.sqrt 0.7 := by nlinarith
  have hprodu : Real.sqrt 0.8 * Real.sqrt 0.7 < 0.74835 := by nlinarith
  rw [e15, e05, e2]
  have hvl : 0.4848 < 0.8 * Real.sqrt 0.8 * 0.81 * Real.sqrt 0.7 := by nlinarith
  have hvu : 0.8 * Real.sqrt 0.8 * 0.81 * Real.sqrt 0.7 < 0.485 := by nlinarith
  rw [min_eq_right (by linarith)]
  exact ⟨hvl, hvu⟩

/-- Counterexample to C7 as stated: the reference gospel value
`calculate_innovation_gospel_value 0.8 0.9 0.7` is not approximately
`0.44` (it is not within `0.005` of `0.44`; it is about `0.48492`). -/
theorem gospel_reference_not_approx_044 :
    ¬ |(calculate_innovation_gospel_value 0.8 0.9 0.7).getD 0 - 0.44| ≤ 0.005 := by
  have h := gospel_example_bounds
  rw [calculate_innovation_gospel_value, if_neg (by norm_num), Option.getD_some]
  intro habs
  rw [abs_le] at habs
  linarith [h.1, habs.2]

/-- Claim C7 (amended): `calculate_innovation_gospel_value 0.8 0.9 0.7`
equals `min 1 (0.8 ^ 1.5 * 0.9 ^ 2 * 0.7 ^ 0.5)` and this value is
approximately `0.48` (within `0.005` of `0.48`), not `0.44`. -/
theorem gospel_reference_example :
    ∃ v, calculate_innovation_gospel_value 0.8 0.9 0.7 = some v ∧
      v = min 1 ((0.8 : ℝ) ^ (1.5 : ℝ) * (0.9 : ℝ) ^ 2 * (0.7 : ℝ) ^ (0.5 : ℝ)) ∧
      |v - 0.48| ≤ 0.005 := by
  refine ⟨min 1 ((0.8 : ℝ) ^ (1.5 : ℝ) * (0.9 : ℝ) ^ (2 : ℝ) * (0.7 : ℝ) ^ (0.5 : ℝ)),
    ?_, ?_, ?_⟩
  · rw [calculate_innovation_gospel_value, if_neg (by norm_num)]
  · rw [Real.rpow_two]
  · have h := gospel_example_bounds
    rw [abs_le]
    exact ⟨by linarith [h.1], by linarith [h.2]⟩
